import Mathlib

/-!
# Verification of the mobile-use run orchestrator (`src/mobile_use/main.py`)

A shallow embedding of the orchestration code in `main.py`:

* `pollBridge` — the bridge status-polling loop inside `run_servers`
  (lines 100–123);
* `get_mobile_use_context` — device-context construction (lines 140–166);
* `consumeStream` / `log_agent_thoughts` — the streaming loop of
  `run_automation` (lines 257–271) together with the durable event log;
* `bootstrapLoop` / `run_automation` — the bootstrap retry loop and the
  whole orchestrator control flow (lines 169–320).

Effectful Python code is embedded as pure functions from an explicit
environment (device resolution result, per-attempt server outcomes, the
stream's chunks, whether the stream raises, the structured-output call's
outcome) to a `RunOutcome` recording the returned/raised value together
with a trace of the observable side effects (server attempts, sleeps,
trace-artifact compilation, renames, results-sink writes).
-/

namespace MobileUse

/-- `BridgeStatus` tags reported by the device hardware bridge
(`mobile_use.servers.device_hardware_bridge.BridgeStatus`). -/
inductive BridgeStatus
  | STARTING
  | RUNNING
  | NO_DEVICE
  | FAILED
  | PORT_IN_USE
  | STOPPED
deriving DecidableEq, Repr

/-- The `failed_statuses` list of `run_servers` (main.py lines 111–116). -/
def failedStatuses : List BridgeStatus :=
  [.NO_DEVICE, .FAILED, .PORT_IN_USE, .STOPPED]

/-- Outcome of the bridge status-polling loop: `success` on `RUNNING`,
`failure` carries the diagnostic `output` field of the status info. -/
inductive PollOutcome
  | success
  | failure (diag : String)
deriving DecidableEq, Repr

/-- Result of the poll loop: the outcome, the number of `get_status` polls
performed, and the number of 1-time-unit sleeps performed. -/
structure PollResult where
  outcome : PollOutcome
  polls : Nat
  sleeps : Nat
deriving DecidableEq, Repr

/-- The `while True` status-polling loop of `run_servers` (main.py lines
100–123).  `statuses i` is the `(status, output)` pair the bridge reports on
the `i`-th poll.  The loop itself has no termination bound, so it is embedded
with explicit fuel: `none` means the loop has not terminated within `fuel`
further polls.  A poll that sees `RUNNING` breaks with success; one that sees
a status in `failedStatuses` returns failure with the diagnostic output; any
other status (`STARTING`) sleeps 1 time unit and polls again. -/
def pollBridge (statuses : Nat → BridgeStatus × String) :
    Nat → Nat → Option PollResult
  | 0, _ => none
  | fuel + 1, i =>
    if (statuses i).1 = .RUNNING then
      some ⟨.success, i + 1, i⟩
    else if (statuses i).1 ∈ failedStatuses then
      some ⟨.failure (statuses i).2, i + 1, i⟩
    else
      pollBridge statuses fuel (i + 1)

/-- A bridge status is terminal when it is `RUNNING` or in the failure set;
`STARTING` is the only non-terminal status. -/
def terminalStatus (s : BridgeStatus) : Prop :=
  s = .RUNNING ∨ s ∈ failedStatuses

instance : DecidablePred terminalStatus := fun s => by
  unfold terminalStatus; infer_instance

/-- The outcome the poll loop reports for the first terminal status info. -/
def pollOutcomeOf (si : BridgeStatus × String) : PollOutcome :=
  if si.1 = .RUNNING then .success else .failure si.2

lemma pollBridge_step_starting (statuses : Nat → BridgeStatus × String)
    (fuel i : Nat) (h : (statuses i).1 = .STARTING) :
    pollBridge statuses (fuel + 1) i = pollBridge statuses fuel (i + 1) := by
  simp [pollBridge, h, failedStatuses]

lemma pollBridge_step_terminal (statuses : Nat → BridgeStatus × String)
    (fuel i : Nat) (h : terminalStatus (statuses i).1) :
    pollBridge statuses (fuel + 1) i = some ⟨pollOutcomeOf (statuses i), i + 1, i⟩ := by
  rcases h with h | h
  · simp [pollBridge, pollOutcomeOf, h]
  · by_cases hr : (statuses i).1 = .RUNNING
    · simp [pollBridge, pollOutcomeOf, hr]
    · simp [pollBridge, pollOutcomeOf, hr, h]

/-- Auxiliary: a status that is not terminal is `STARTING`. -/
lemma starting_of_not_terminal {s : BridgeStatus} (h : ¬ terminalStatus s) :
    s = .STARTING := by
  cases s <;> simp [terminalStatus, failedStatuses] at h ⊢

lemma pollBridge_first_terminal_aux (statuses : Nat → BridgeStatus × String)
    (k : Nat) (hterm : terminalStatus (statuses k).1)
    (hpre : ∀ j, j < k → (statuses j).1 = .STARTING) :
    ∀ fuel i, i ≤ k → k - i < fuel →
      pollBridge statuses fuel i = some ⟨pollOutcomeOf (statuses k), k + 1, k⟩ := by
  intro fuel
  induction fuel with
  | zero => intro i _ hlt; omega
  | succ fuel ih =>
    intro i hik hlt
    rcases Nat.eq_or_lt_of_le hik with rfl | hik'
    · exact pollBridge_step_terminal statuses fuel i hterm
    · rw [pollBridge_step_starting statuses fuel i (hpre i hik')]
      exact ih (i + 1) hik' (by omega)

lemma pollBridge_all_starting (statuses : Nat → BridgeStatus × String)
    (h : ∀ i, (statuses i).1 = .STARTING) :
    ∀ fuel i, pollBridge statuses fuel i = none := by
  intro fuel
  induction fuel with
  | zero => intro i; rfl
  | succ fuel ih =>
    intro i
    rw [pollBridge_step_starting statuses fuel i (h i)]
    exact ih (i + 1)

/-- **C8.** The bridge status poll of `run_servers` reads the status at a
fixed 1-time-unit interval until it is `RUNNING` (success) or in
{`NO_DEVICE`, `FAILED`, `PORT_IN_USE`, `STOPPED`} (failure, carrying the
diagnostic output): if the first terminal status appears on poll `k` (all
earlier polls report `STARTING`), then for any fuel large enough the loop
ends with exactly `k + 1` polls — no poll after the terminal one — and `k`
unit sleeps, reporting `success` for `RUNNING` and `failure` with the
diagnostic output otherwise; and a bridge that reports `STARTING` forever is
polled forever (the loop terminates within no finite fuel — the poller
enforces no overall timeout). -/
theorem pollBridge_terminates_iff_terminal :
    (∀ (statuses : Nat → BridgeStatus × String) (k : Nat),
      terminalStatus (statuses k).1 →
      (∀ j, j < k → (statuses j).1 = .STARTING) →
      ∀ fuel, k < fuel →
        pollBridge statuses fuel 0 = some ⟨pollOutcomeOf (statuses k), k + 1, k⟩)
    ∧ (∀ statuses : Nat → BridgeStatus × String,
        (∀ i, (statuses i).1 = .STARTING) →
        ∀ fuel i, pollBridge statuses fuel i = none) := by
  constructor
  · intro statuses k hterm hpre fuel hfuel
    exact pollBridge_first_terminal_aux statuses k hterm hpre fuel 0
      (Nat.zero_le k) (by omega)
  · exact pollBridge_all_starting

/-! ## Device-context construction (`get_mobile_use_context`, lines 140–166) -/

/-- The screen/state service's answer to `get_screen_data`. -/
structure ScreenDataResponse where
  platform : String
  width : Nat
  height : Nat
deriving DecidableEq, Repr

/-- `mobile_use.context.DevicePlatform`. -/
inductive DevicePlatform
  | ANDROID
  | IOS
deriving DecidableEq, Repr

/-- The host-platform tag of `DeviceContext` (`"WINDOWS"` / `"LINUX"`). -/
inductive HostPlatform
  | WINDOWS
  | LINUX
deriving DecidableEq, Repr

/-- `mobile_use.context.DeviceContext`, the fields built in
`get_mobile_use_context`. -/
structure DeviceContext where
  host_platform : HostPlatform
  mobile_platform : DevicePlatform
  device_id : String
  device_width : Nat
  device_height : Nat
deriving DecidableEq, Repr

/-- `get_mobile_use_context` (main.py lines 140–166).  The screen/state
service is embedded as the list of responses it would return to successive
`get_screen_data` queries; the function consumes responses from the front, so
the returned remainder shows how many queries were performed.  The host
platform string is `platform.system()`; the device context maps it to
`WINDOWS` exactly for `"Windows"`, and the reported mobile platform to
`ANDROID` exactly for `"ANDROID"` (anything else becomes `IOS`). -/
def get_mobile_use_context (device_id : String) (host_platform : String)
    (queries : List ScreenDataResponse) :
    Option (DeviceContext × List ScreenDataResponse) :=
  match queries with
  | [] => none
  | screen_data :: rest =>
    some ({ host_platform := if host_platform = "Windows" then .WINDOWS else .LINUX,
            mobile_platform :=
              if screen_data.platform = "ANDROID" then .ANDROID else .IOS,
            device_id := device_id,
            device_width := screen_data.width,
            device_height := screen_data.height }, rest)

/-- **C9.** Device-context construction performs exactly one screen-data
query (it consumes exactly the head of the pending responses and leaves the
rest), the mobile platform tag is `ANDROID` iff the reported platform string
is exactly `"ANDROID"` (every other value yields `IOS`), and the host
platform tag is `WINDOWS` iff the host OS string is exactly `"Windows"`
(anything else yields `LINUX`). -/
theorem get_mobile_use_context_spec :
    ∀ (device_id host : String) (sd : ScreenDataResponse)
      (rest : List ScreenDataResponse),
      ∃ ctx, get_mobile_use_context device_id host (sd :: rest) = some (ctx, rest)
        ∧ (ctx.mobile_platform = .ANDROID ↔ sd.platform = "ANDROID")
        ∧ (ctx.mobile_platform = .IOS ↔ sd.platform ≠ "ANDROID")
        ∧ (ctx.host_platform = .WINDOWS ↔ host = "Windows")
        ∧ (ctx.host_platform = .LINUX ↔ host ≠ "Windows") := by
  intro device_id host sd rest
  by_cases hp : sd.platform = "ANDROID" <;> by_cases hh : host = "Windows" <;>
    exact ⟨_, rfl, by simp [get_mobile_use_context, hp, hh],
      by simp [get_mobile_use_context, hp, hh],
      by simp [get_mobile_use_context, hp, hh],
      by simp [get_mobile_use_context, hp, hh]⟩

/-! ## Streaming state accumulation (`run_automation` lines 253–271) -/

/-- `mobile_use.graph.state.State`, with exactly the fields the orchestrator
constructs in `run_automation` (main.py lines 236–251).  Field payloads are
embedded with simple carrier types; `last_state = State(**content)` rebuilds
every field from the chunk's payload, so nothing of a previous state
survives a snapshot. -/
structure StateV where
  messages : List String
  initial_goal : String
  subgoal_plan : List String
  latest_ui_hierarchy : Option String
  latest_screenshot_base64 : Option String
  focused_app_info : Option String
  device_date : Option String
  structured_decisions : Option String
  agents_thoughts : List String
  remaining_steps : Nat
  executor_retrigger : Bool
  executor_failed : Bool
  executor_messages : List String
  cortex_last_thought : Option String
deriving DecidableEq, Repr

/-- A chunk of the planning engine's multiplexed stream, tagged by
`stream_mode` ∈ {`"messages"`, `"custom"`, `"values"`}: only `values`
chunks carry a full state snapshot. -/
inductive Chunk
  | tokens (payload : String)
  | custom (payload : String)
  | values (payload : StateV)
deriving DecidableEq, Repr

/-- The durable event log the thought recorder writes to, together with the
high-water mark of entries already written. -/
structure RecorderState where
  log : List String
  hwm : Nat
deriving DecidableEq, Repr

/-- Modelled from the spec: `log_agent_thoughts`
(`mobile_use.utils.recorder`), whose source is not part of the staged
files — only its call site in `run_automation` (main.py lines 268–271) is.
Per §4.5 of the spec it appends to the durable event log only the
newly-present agent-thought entries of the cumulative list it is handed,
"tracking a high-water mark of entries written": entries below the mark are
never re-written. -/
def log_agent_thoughts (agents_thoughts : List String) (rs : RecorderState) :
    RecorderState :=
  if rs.hwm < agents_thoughts.length then
    { log := rs.log ++ agents_thoughts.drop rs.hwm,
      hwm := agents_thoughts.length }
  else rs

/-- The `async for chunk in ...astream(...)` loop of `run_automation`
(main.py lines 257–271): `values` chunks replace `last_state` wholesale and
feed the cumulative thought list to `log_agent_thoughts`; `messages`
(tokens) and `custom` chunks are ignored. -/
def consumeStream : List Chunk → Option StateV → RecorderState →
    Option StateV × RecorderState
  | [], last_state, rs => (last_state, rs)
  | .values s :: rest, _, rs =>
    consumeStream rest (some s) (log_agent_thoughts s.agents_thoughts rs)
  | .tokens _ :: rest, last_state, rs => consumeStream rest last_state rs
  | .custom _ :: rest, last_state, rs => consumeStream rest last_state rs

/-- The payloads of the full-snapshot (`values`) chunks of a stream, in
order. -/
def snapshots (chunks : List Chunk) : List StateV :=
  chunks.filterMap fun c =>
    match c with
    | .values s => some s
    | _ => none

/-- The payload of the last full-snapshot chunk of a stream, when one
exists — the spec's description of what the run state must end as. -/
def lastSnapshot (chunks : List Chunk) : Option StateV :=
  (snapshots chunks).getLast?

lemma getLast?_cons_or {α : Type} :
    ∀ (l : List α) (a : α), (a :: l).getLast? = l.getLast?.or (some a) := by
  intro l
  induction l with
  | nil => intro a; rfl
  | cons b t ih =>
    intro a
    rw [List.getLast?_cons_cons, ih b]
    cases t.getLast? <;> rfl

lemma lastSnapshot_cons_values (s : StateV) (rest : List Chunk) :
    lastSnapshot (.values s :: rest) = (lastSnapshot rest).or (some s) := by
  unfold lastSnapshot snapshots
  rw [List.filterMap_cons]
  exact getLast?_cons_or _ s

lemma consumeStream_fst (chunks : List Chunk) :
    ∀ (init : Option StateV) (rs : RecorderState),
      (consumeStream chunks init rs).1 = (lastSnapshot chunks).or init := by
  induction chunks with
  | nil => intro init rs; simp [consumeStream, lastSnapshot, snapshots]
  | cons c rest ih =>
    intro init rs
    cases c with
    | values s =>
      rw [consumeStream, ih, lastSnapshot_cons_values]
      cases h : lastSnapshot rest <;> simp [Option.or]
    | tokens p =>
      rw [consumeStream, ih]
      simp [lastSnapshot, snapshots]
    | custom p =>
      rw [consumeStream, ih]
      simp [lastSnapshot, snapshots]

/-- **C5.** After consuming any finite sequence of stream chunks, the run
state held by the streaming loop is exactly the payload of the last
full-snapshot (`values`) chunk when one was observed — each snapshot
replaces the state wholesale, never merging fields from several — and is
the unchanged initial state otherwise, so `tokens` and `custom` chunks
leave the run state untouched. -/
theorem run_state_last_write_wins :
    ∀ (chunks : List Chunk) (init : Option StateV) (rs : RecorderState),
      (consumeStream chunks init rs).1 = (lastSnapshot chunks).or init :=
  consumeStream_fst

/-! ## Idempotent thought logging (C4) -/

lemma log_agent_thoughts_prefix {l t : List String} (h : l <+: t) :
    log_agent_thoughts t ⟨l, l.length⟩ = ⟨t, t.length⟩ := by
  obtain ⟨u, rfl⟩ := h
  unfold log_agent_thoughts
  by_cases hlt : l.length < (l ++ u).length
  · simp [hlt, List.drop_left]
  · have hu : u = [] := by
      rw [List.length_append] at hlt
      have := List.eq_nil_of_length_eq_zero (by omega : u.length = 0)
      exact this
    subst hu
    simp [hlt]

lemma fold_log_agent_thoughts (ts : List (List String)) :
    ∀ l : List String,
      (∀ hd, ts.head? = some hd → l <+: hd) →
      ts.Chain' (· <+: ·) →
      ts.foldl (fun rs t => log_agent_thoughts t rs) ⟨l, l.length⟩ =
        ⟨ts.getLastD l, (ts.getLastD l).length⟩ := by
  induction ts with
  | nil => intro l _ _; rfl
  | cons t rest ih =>
    intro l hhd hch
    have h1 : l <+: t := hhd t rfl
    rw [List.foldl_cons, log_agent_thoughts_prefix h1, List.getLastD_cons]
    exact ih t (fun hd hhd' => (List.chain'_cons'.mp hch).1 hd hhd')
      (List.chain'_cons'.mp hch).2

lemma consumeStream_snd (chunks : List Chunk) :
    ∀ (init : Option StateV) (rs : RecorderState),
      (consumeStream chunks init rs).2 =
        (snapshots chunks).foldl
          (fun rs s => log_agent_thoughts s.agents_thoughts rs) rs := by
  induction chunks with
  | nil => intro init rs; simp [consumeStream, snapshots]
  | cons c rest ih =>
    intro init rs
    cases c with
    | values s => rw [consumeStream, ih]; simp [snapshots]
    | tokens p => rw [consumeStream, ih]; simp [snapshots]
    | custom p => rw [consumeStream, ih]; simp [snapshots]

/-- **C4.** Appending agent thoughts to the durable event log is idempotent
with respect to entries already written: because each full snapshot carries
the cumulative thought list (each snapshot's list extends the previous
one's), consuming the whole stream from an empty log writes every thought
entry exactly once — the final log *is* the last snapshot's cumulative list
(no entry duplicated, none lost), with the high-water mark at its length. -/
theorem log_agent_thoughts_exactly_once
    (chunks : List Chunk)
    (hcum : ((snapshots chunks).map StateV.agents_thoughts).Chain' (· <+: ·)) :
    (consumeStream chunks none ⟨[], 0⟩).2 =
      ⟨((snapshots chunks).map StateV.agents_thoughts).getLastD [],
       (((snapshots chunks).map StateV.agents_thoughts).getLastD []).length⟩ := by
  rw [consumeStream_snd]
  have : (snapshots chunks).foldl
      (fun rs s => log_agent_thoughts s.agents_thoughts rs) ⟨[], 0⟩ =
      ((snapshots chunks).map StateV.agents_thoughts).foldl
        (fun rs t => log_agent_thoughts t rs) ⟨[], 0⟩ := by
    rw [List.foldl_map]
  rw [this]
  exact fold_log_agent_thoughts _ [] (fun hd _ => List.nil_prefix) hcum

/-! ## The run orchestrator (`run_automation`, main.py lines 169–320) -/

/-- An observable side effect of `run_automation`, in the order performed. -/
inductive Ev
  /-- One call to `run_servers` and its outcome. -/
  | serverAttempt (ok : Bool)
  /-- `time.sleep(n)` / `asyncio.sleep(n)`. -/
  | sleep (n : Nat)
  /-- The planning engine is invoked and its stream consumed
  (`get_graph(context)` + the `astream` loop). -/
  | graphStream
  /-- `create_gif_from_trace_folder` on the temp trace directory. -/
  | compileGif
  /-- `create_steps_json_from_trace_folder` on the temp trace directory. -/
  | compileStepsJson
  /-- `remove_images_from_trace_folder`. -/
  | removeImages
  /-- `remove_steps_json_from_trace_folder`. -/
  | removeStepsJson
  /-- The temp trace directory `tmp` is renamed to `name` under the traces
  output root. -/
  | renameTrace (tmp name : String)
  /-- `record_events` writes a payload to the results sink. -/
  | recordStructured (payload : List (String × String))
  /-- `record_events` writes the fallback thought to the results sink. -/
  | recordThought (msg : String)
deriving DecidableEq, Repr

/-- The value `run_automation` returns when it returns one: the structured
payload, or the single most recent recorded thought. -/
inductive RunResult
  | structured (payload : List (String × String))
  | thought (msg : String)
deriving DecidableEq, Repr

/-- The environment a single `run_automation` call executes against: every
external collaborator's behaviour, fixed up front. -/
structure Env where
  /-- What `get_first_device_id` returns (`None` or a string, possibly
  empty — Python tests it for truthiness). -/
  device_id : Option String
  /-- The outcome of the `k`-th call to `run_servers` (0-based). -/
  serverResults : Nat → Bool
  /-- The chunks the planning engine's stream yields, in order. -/
  chunks : List Chunk
  /-- Whether the stream raises an exception after yielding its chunks. -/
  streamError : Bool
  /-- Whether `output_config` is present and `needs_structured_format()`. -/
  outputRequested : Bool
  /-- The structured-output generator's behaviour on the final state:
  `.error` models `outputter` raising, `.ok` its returned dict (`none` for
  Python `None`). -/
  outputterResult : Except Unit (Option (List (String × String)))
  /-- `convert_timestamp_to_str(start_time)`. -/
  timestampStr : String

/-- Everything observable about one `run_automation` call. -/
structure RunOutcome where
  /-- `.ok r` models a normal return (`r = none` for `return`/`return None`);
  `.error ()` models the call re-raising the streaming exception. -/
  result : Except Unit (Option RunResult)
  /-- The side effects performed before control returned, in order. -/
  events : List Ev
  /-- The durable event log and its high-water mark. -/
  recorder : RecorderState
  /-- Payloads written to the results sink (`record_events` on
  `results_output_path`). -/
  resultsSink : List RunResult
  /-- The local `success` flag at function exit. -/
  successFlag : Bool
  /-- Whether the temp trace directory was ever created. -/
  tempDirCreated : Bool
  /-- Whether the temp trace directory still exists at function exit. -/
  tempDirExists : Bool
  /-- The named directories present under the traces output root at
  function exit. -/
  finalDirs : List String
deriving Repr

/-- Python truthiness of an optional string (`if test_name:`,
`if not device_id:`): `none` and the empty string are falsy. -/
def optStrTruthy : Option String → Bool
  | none => false
  | some s => !(s = "")

/-- The bootstrap retry loop of `run_automation` (main.py lines 191–206),
with `restart_attempt` as the loop counter and explicit fuel bounding the
remaining iterations (the loop body runs at most `maxA - attempt` times, so
fuel `maxA` from `attempt = 0` is exact; the fuel-exhausted case coincides
with the `while` guard failing).  Returns whether to proceed past the loop,
and the attempt/pause events performed:
each iteration calls `run_servers` once; success breaks out; a failure
increments the counter, then either sleeps 3 time units and retries (counter
still below `max_restart_attempts`) or returns failure. -/
def bootstrapLoop (results : Nat → Bool) (maxA : Nat) :
    Nat → Nat → Bool × List Ev
  | 0, _ => (true, [])
  | fuel + 1, attempt =>
    if attempt < maxA then
      if results attempt then (true, [.serverAttempt true])
      else if attempt + 1 < maxA then
        let rest := bootstrapLoop results maxA fuel (attempt + 1)
        (rest.1, .serverAttempt false :: .sleep 3 :: rest.2)
      else (false, [.serverAttempt false])
    else (true, [])

/-- The trace name computed in the `finally` block (main.py lines 294–296):
`f"{test_name}{status}_{formatted_ts}"` with `status` `"_PASS"` or
`"_FAIL"`. -/
def newTraceName (test_name : String) (success : Bool) (ts : String) : String :=
  test_name ++ (if success then "_PASS" else "_FAIL") ++ "_" ++ ts

/-- The `finally` block of `run_automation` (main.py lines 292–310): when
the trace paths were set up (a truthy test name), compile the gif and the
steps JSON from the temp directory, strip the raw images and the
intermediate steps JSON, and rename the temp directory into the output root
under `newTraceName`; in every case sleep 1 time unit at the end.  Returns
the events performed, whether the temp directory still exists, and the
named directories now in the output root. -/
def finalizeTrace (hasTrace : Bool) (test_name ts : String) (success : Bool) :
    List Ev × Bool × List String :=
  if hasTrace then
    ([.compileGif, .compileStepsJson, .removeImages, .removeStepsJson,
      .renameTrace test_name (newTraceName test_name success ts), .sleep 1],
     false, [newTraceName test_name success ts])
  else ([.sleep 1], false, [])

/-- Python truthiness of `structured_output : dict | None`: `None` and the
empty dict are falsy. -/
def structuredTruthy : Option (List (String × String)) → Bool
  | none => false
  | some d => !d.isEmpty

/-- The result-resolution tail of `run_automation` (main.py lines 311–320):
a truthy structured output wins; else the last recorded thought of the
final state, when there is one; else no result. -/
def resolveOutput (structured_output : Option (List (String × String)))
    (last_state : Option StateV) : Option RunResult :=
  if structuredTruthy structured_output then
    some (.structured (structured_output.getD []))
  else
    match last_state with
    | some s =>
      match s.agents_thoughts.getLast? with
      | some msg => some (.thought msg)
      | none => none
    | none => none

/-- The `record_events` write the result-resolution tail performs, if any
(main.py lines 313 and 318). -/
def recordEventsOf : Option RunResult → List Ev
  | some (.structured payload) => [.recordStructured payload]
  | some (.thought msg) => [.recordThought msg]
  | none => []

/-- `run_automation` (main.py lines 169–320) over an environment `env`,
with the `test_name` argument explicit (`traces_output_path_str` only names
the output root and is dropped by the embedding).  Mirrors the source's
control flow: device resolution (`return` when falsy), the bootstrap retry
loop (`return` when exhausted), trace setup when the test name is truthy,
the streaming `try` block (`last_state` and the thought log), the
structured-output attempt with its local `except`, the `finally` trace
finalization on every exit path, and the result resolution tail.  An
exception from the stream makes the whole call re-raise (`result = .error`)
— but only after the `finally` block's events. -/
def run_automation (env : Env) (test_name : Option String) : RunOutcome :=
  if !(optStrTruthy env.device_id) then
    { result := .ok none, events := [], recorder := ⟨[], 0⟩, resultsSink := [],
      successFlag := false, tempDirCreated := false, tempDirExists := false,
      finalDirs := [] }
  else
    let boot := bootstrapLoop env.serverResults 3 3 0
    if !boot.1 then
      { result := .ok none, events := boot.2, recorder := ⟨[], 0⟩,
        resultsSink := [], successFlag := false, tempDirCreated := false,
        tempDirExists := false, finalDirs := [] }
    else
      let hasTrace := optStrTruthy test_name
      let tn := test_name.getD ""
      let stream := consumeStream env.chunks none ⟨[], 0⟩
      let last_state := stream.1
      let recorder := stream.2
      let preEvents := boot.2 ++ [.graphStream]
      if env.streamError then
        let fin := finalizeTrace hasTrace tn env.timestampStr false
        { result := .error (), events := preEvents ++ fin.1,
          recorder := recorder, resultsSink := [], successFlag := false,
          tempDirCreated := hasTrace, tempDirExists := fin.2.1,
          finalDirs := fin.2.2 }
      else
        match last_state with
        | none =>
          let fin := finalizeTrace hasTrace tn env.timestampStr false
          { result := .ok none, events := preEvents ++ fin.1,
            recorder := recorder, resultsSink := [], successFlag := false,
            tempDirCreated := hasTrace, tempDirExists := fin.2.1,
            finalDirs := fin.2.2 }
        | some s =>
          let structured_output : Option (List (String × String)) :=
            if env.outputRequested then
              match env.outputterResult with
              | .ok v => v
              | .error _ => none
            else none
          let fin := finalizeTrace hasTrace tn env.timestampStr true
          let res := resolveOutput structured_output (some s)
          { result := .ok res,
            events := preEvents ++ fin.1 ++ recordEventsOf res,
            recorder := recorder, resultsSink := res.toList,
            successFlag := true, tempDirCreated := hasTrace,
            tempDirExists := fin.2.1, finalDirs := fin.2.2 }

/-! ## Helper predicates over event traces -/

/-- Whether an event is a `run_servers` call. -/
def isServerAttempt : Ev → Bool
  | .serverAttempt _ => true
  | _ => false

/-- Whether an event is a 3-time-unit bootstrap backoff pause. -/
def isBackoffPause : Ev → Bool
  | .sleep 3 => true
  | _ => false

/-- Whether an event is a results-sink write. -/
def isRecordEvent : Ev → Bool
  | .recordStructured _ => true
  | .recordThought _ => true
  | _ => false

lemma bootstrapLoop_mem (results : Nat → Bool) (maxA : Nat) :
    ∀ (fuel attempt : Nat) (e : Ev),
      e ∈ (bootstrapLoop results maxA fuel attempt).2 →
      isServerAttempt e = true ∨ e = .sleep 3 := by
  intro fuel
  induction fuel with
  | zero => intro attempt e he; simp [bootstrapLoop] at he
  | succ fuel ih =>
    intro attempt e he
    unfold bootstrapLoop at he
    by_cases h1 : attempt < maxA
    · simp only [h1, if_true] at he
      by_cases h2 : results attempt
      · simp [h2] at he; simp [he, isServerAttempt]
      · simp only [h2, Bool.false_eq_true, if_false] at he
        by_cases h3 : attempt + 1 < maxA
        · simp only [h3, if_true, List.mem_cons] at he
          rcases he with rfl | rfl | he
          · simp [isServerAttempt]
          · simp
          · exact ih (attempt + 1) e he
        · simp [h3] at he; simp [he, isServerAttempt]
    · simp [h1] at he

lemma bootstrapLoop_attempts_le (results : Nat → Bool) (maxA : Nat) :
    ∀ (fuel attempt : Nat),
      (bootstrapLoop results maxA fuel attempt).2.countP isServerAttempt ≤ fuel := by
  intro fuel
  induction fuel with
  | zero => intro attempt; simp [bootstrapLoop]
  | succ fuel ih =>
    intro attempt
    unfold bootstrapLoop
    by_cases h1 : attempt < maxA
    · by_cases h2 : results attempt
      · simp [h1, h2, List.countP_cons, isServerAttempt]
      · by_cases h3 : attempt + 1 < maxA
        · simp only [h1, if_true, h2, Bool.false_eq_true, if_false, h3]
          rw [List.countP_cons, List.countP_cons]
          have := ih (attempt + 1)
          simp [isServerAttempt]
          omega
        · simp [h1, h2, h3, List.countP_cons, isServerAttempt]
    · simp [h1]

/-- Bootstrap outcome when the first attempt succeeds. -/
lemma bootstrapLoop_succ0 (results : Nat → Bool) (h0 : results 0 = true) :
    bootstrapLoop results 3 3 0 = (true, [.serverAttempt true]) := by
  simp [bootstrapLoop, h0]

/-- Bootstrap outcome: one failure, then success. -/
lemma bootstrapLoop_fail1 (results : Nat → Bool)
    (h0 : results 0 = false) (h1 : results 1 = true) :
    bootstrapLoop results 3 3 0 =
      (true, [.serverAttempt false, .sleep 3, .serverAttempt true]) := by
  simp [bootstrapLoop, h0, h1]

/-- Bootstrap outcome: two failures, then success. -/
lemma bootstrapLoop_fail2 (results : Nat → Bool)
    (h0 : results 0 = false) (h1 : results 1 = false) (h2 : results 2 = true) :
    bootstrapLoop results 3 3 0 =
      (true, [.serverAttempt false, .sleep 3, .serverAttempt false, .sleep 3,
        .serverAttempt true]) := by
  simp [bootstrapLoop, h0, h1, h2]

/-- Bootstrap outcome: three consecutive failures exhaust the attempt budget
(no pause after the final attempt, no 4th attempt regardless of
`results 3`). -/
lemma bootstrapLoop_fail3 (results : Nat → Bool)
    (h0 : results 0 = false) (h1 : results 1 = false) (h2 : results 2 = false) :
    bootstrapLoop results 3 3 0 =
      (false, [.serverAttempt false, .sleep 3, .serverAttempt false, .sleep 3,
        .serverAttempt false]) := by
  simp [bootstrapLoop, h0, h1, h2]

/-- Past the bootstrap loop, the events of a run are the bootstrap events,
then the planning-engine invocation, then a tail holding no `run_servers`
call, no 3-unit backoff pause, and no results-sink write unless the run
completed normally with a result. -/
lemma run_automation_postBoot (env : Env) (tn : Option String)
    (hdev : optStrTruthy env.device_id = true)
    (hboot : (bootstrapLoop env.serverResults 3 3 0).1 = true) :
    ∃ tail,
      (run_automation env tn).events =
        (bootstrapLoop env.serverResults 3 3 0).2 ++ (Ev.graphStream :: tail) ∧
      tail.countP isServerAttempt = 0 ∧
      tail.countP isBackoffPause = 0 := by
  simp only [run_automation, hdev, hboot, Bool.not_true, Bool.false_eq_true,
    if_false]
  cases herr : env.streamError with
  | true =>
    refine ⟨(finalizeTrace (optStrTruthy tn) (tn.getD "") env.timestampStr false).1,
      by simp, ?_, ?_⟩ <;>
      cases htr : optStrTruthy tn <;>
        simp [finalizeTrace, isServerAttempt, isBackoffPause, List.countP_cons]
  | false =>
    cases hls : (consumeStream env.chunks none ⟨[], 0⟩).1 with
    | none =>
      refine ⟨(finalizeTrace (optStrTruthy tn) (tn.getD "") env.timestampStr false).1,
        by simp [hls], ?_, ?_⟩ <;>
        cases htr : optStrTruthy tn <;>
          simp [finalizeTrace, isServerAttempt, isBackoffPause, List.countP_cons]
    | some s =>
      refine ⟨(finalizeTrace (optStrTruthy tn) (tn.getD "") env.timestampStr true).1 ++
          recordEventsOf (resolveOutput
            (if env.outputRequested then
              match env.outputterResult with
              | .ok v => v
              | .error _ => none
            else none) (some s)),
        by simp [hls], ?_, ?_⟩ <;>
        · rw [List.countP_append]
          rcases resolveOutput _ (some s) with _ | r
          · cases htr : optStrTruthy tn <;>
              simp [finalizeTrace, recordEventsOf, isServerAttempt, isBackoffPause,
                List.countP_cons]
          · cases r <;> cases htr : optStrTruthy tn <;>
              simp [finalizeTrace, recordEventsOf, isServerAttempt, isBackoffPause,
                List.countP_cons]

lemma run_automation_nodevice (env : Env) (tn : Option String)
    (hdev : optStrTruthy env.device_id = false) :
    run_automation env tn =
      { result := .ok none, events := [], recorder := ⟨[], 0⟩, resultsSink := [],
        successFlag := false, tempDirCreated := false, tempDirExists := false,
        finalDirs := [] } := by
  simp [run_automation, hdev]

lemma run_automation_bootfail (env : Env) (tn : Option String)
    (hdev : optStrTruthy env.device_id = true)
    (hboot : (bootstrapLoop env.serverResults 3 3 0).1 = false) :
    run_automation env tn =
      { result := .ok none, events := (bootstrapLoop env.serverResults 3 3 0).2,
        recorder := ⟨[], 0⟩, resultsSink := [], successFlag := false,
        tempDirCreated := false, tempDirExists := false, finalDirs := [] } := by
  simp [run_automation, hdev, hboot]

/-- **C2.** `run_automation` performs at most 3 total bootstrap attempts
(calls to `run_servers`); and whenever the device is resolved and the first
3 attempts fail, the run returns with no result after exactly 3 attempts —
a 4th attempt never occurs, whatever later attempts would have returned —
and the planning engine is never invoked. -/
theorem bootstrap_bounded_attempts :
    (∀ (env : Env) (tn : Option String),
      (run_automation env tn).events.countP isServerAttempt ≤ 3)
    ∧ (∀ (env : Env) (tn : Option String),
        optStrTruthy env.device_id = true →
        env.serverResults 0 = false →
        env.serverResults 1 = false →
        env.serverResults 2 = false →
        (run_automation env tn).result = .ok none ∧
        (run_automation env tn).events.countP isServerAttempt = 3 ∧
        Ev.graphStream ∉ (run_automation env tn).events) := by
  constructor
  · intro env tn
    cases hdev : optStrTruthy env.device_id with
    | false => rw [run_automation_nodevice env tn hdev]; simp
    | true =>
      cases hboot : (bootstrapLoop env.serverResults 3 3 0).1 with
      | false =>
        rw [run_automation_bootfail env tn hdev hboot]
        exact bootstrapLoop_attempts_le env.serverResults 3 3 0
      | true =>
        obtain ⟨tail, hev, hsa, _⟩ := run_automation_postBoot env tn hdev hboot
        rw [hev, List.countP_append, List.countP_cons]
        have h1 := bootstrapLoop_attempts_le env.serverResults 3 3 0
        simp only [isServerAttempt, hsa, Bool.false_eq_true, if_false]
        omega
  · intro env tn hdev h0 h1 h2
    have hb := bootstrapLoop_fail3 env.serverResults h0 h1 h2
    have hboot : (bootstrapLoop env.serverResults 3 3 0).1 = false := by
      rw [hb]
    rw [run_automation_bootfail env tn hdev hboot, hb]
    refine ⟨rfl, by simp [List.countP_cons, isServerAttempt], by simp⟩

/-- The environment the witnesses run against: a resolvable device,
servers that start first try, a stream yielding one token chunk and one
full snapshot holding two recorded thoughts, then ending cleanly, no
structured output requested. -/
def sampleState : StateV :=
  { messages := [], initial_goal := "g", subgoal_plan := [],
    latest_ui_hierarchy := none, latest_screenshot_base64 := none,
    focused_app_info := none, device_date := none,
    structured_decisions := none, agents_thoughts := ["th1", "th2"],
    remaining_steps := 5, executor_retrigger := false,
    executor_failed := false, executor_messages := [],
    cortex_last_thought := none }

/-- `sampleState` at an earlier point of the run: only the first thought
recorded yet. -/
def sampleState1 : StateV :=
  { sampleState with agents_thoughts := ["th1"] }

/-- A stream with two cumulative snapshots (`["th1"]`, then
`["th1", "th2"]`) and a token chunk in between. -/
def chunksTwoSnapshots : List Chunk :=
  [Chunk.values sampleState1, Chunk.tokens "x", Chunk.values sampleState]

/-- Closed instance of C4: two cumulative snapshots; the event log ends as
`["th1", "th2"]` — `"th1"` written once, not once per snapshot. -/
theorem log_agent_thoughts_exactly_once_witness :
    (consumeStream chunksTwoSnapshots none ⟨[], 0⟩).2 =
      ⟨((snapshots chunksTwoSnapshots).map StateV.agents_thoughts).getLastD [],
       (((snapshots chunksTwoSnapshots).map
          StateV.agents_thoughts).getLastD []).length⟩ :=
  log_agent_thoughts_exactly_once chunksTwoSnapshots
    (by simp [chunksTwoSnapshots, snapshots, sampleState, sampleState1,
      List.cons_prefix_cons])

/-- See `sampleState`. -/
def sampleEnv : Env :=
  { device_id := some "d", serverResults := (fun _ => true),
    chunks := [Chunk.tokens "x", Chunk.values sampleState],
    streamError := false, outputRequested := false,
    outputterResult := Except.ok none, timestampStr := "TS" }

/-- An environment whose first 3 bootstrap attempts fail while the 4th
would succeed — the instance on which claim C3's `N = 3` case fails. -/
def envThreeFails : Env :=
  { sampleEnv with serverResults := (fun i => decide (3 ≤ i)) }

/-- `sampleEnv` but the first bootstrap attempt fails and the second
succeeds. -/
def envFail1 : Env :=
  { sampleEnv with serverResults := (fun i => decide (1 ≤ i)) }

/-- `sampleEnv` but the planning-engine stream raises after its chunks. -/
def envStreamErr : Env :=
  { sampleEnv with streamError := true }

/-- `sampleEnv` but a structured output is requested and the outputter
raises. -/
def envOutErr : Env :=
  { sampleEnv with outputRequested := true,
                   outputterResult := Except.error () }

/-- **C3 (counterexample).** For `N = 3` the claim fails: with the first 3
bootstrap attempts failing and the next attempt set to succeed, the
orchestrator does *not* perform 3 backoff pauses and proceed to streaming —
the third failure exhausts the attempt budget (2 pauses only, no pause
after the final attempt) and the planning engine is never invoked. -/
theorem bootstrap_pauses_claim_cex :
    ¬ ((run_automation envThreeFails none).events.countP isBackoffPause = 3 ∧
       Ev.graphStream ∈ (run_automation envThreeFails none).events) := by
  decide

/-- **C3 (amended).** For every `N` in {1,2}: if the first `N` bootstrap
attempts fail and the next succeeds, the orchestrator performs exactly `N`
fixed 3-time-unit backoff pauses and proceeds to the streaming phase only
after the successful attempt (the pauses and attempts strictly precede the
engine invocation in the trace); for `N = 3` the three failures exhaust the
attempt budget instead: exactly 2 pauses (none after the final attempt), no
streaming, and the run returns with no result. -/
theorem bootstrap_backoff_pauses (env : Env) (tn : Option String)
    (hdev : optStrTruthy env.device_id = true) :
    (env.serverResults 0 = false → env.serverResults 1 = true →
      ∃ tail, (run_automation env tn).events =
          [.serverAttempt false, .sleep 3, .serverAttempt true,
            .graphStream] ++ tail ∧
        (run_automation env tn).events.countP isBackoffPause = 1)
    ∧ (env.serverResults 0 = false → env.serverResults 1 = false →
        env.serverResults 2 = true →
      ∃ tail, (run_automation env tn).events =
          [.serverAttempt false, .sleep 3, .serverAttempt false, .sleep 3,
            .serverAttempt true, .graphStream] ++ tail ∧
        (run_automation env tn).events.countP isBackoffPause = 2)
    ∧ (env.serverResults 0 = false → env.serverResults 1 = false →
        env.serverResults 2 = false →
        (run_automation env tn).events.countP isBackoffPause = 2 ∧
        Ev.graphStream ∉ (run_automation env tn).events ∧
        (run_automation env tn).result = .ok none) := by
  refine ⟨?_, ?_, ?_⟩
  · intro h0 h1
    have hb := bootstrapLoop_fail1 env.serverResults h0 h1
    have hboot : (bootstrapLoop env.serverResults 3 3 0).1 = true := by rw [hb]
    obtain ⟨tail, hev, _, hbp⟩ := run_automation_postBoot env tn hdev hboot
    rw [hb] at hev
    refine ⟨tail, by simpa using hev, ?_⟩
    rw [hev, List.countP_append, List.countP_cons]
    simp [isBackoffPause, hbp, List.countP_cons]
  · intro h0 h1 h2
    have hb := bootstrapLoop_fail2 env.serverResults h0 h1 h2
    have hboot : (bootstrapLoop env.serverResults 3 3 0).1 = true := by rw [hb]
    obtain ⟨tail, hev, _, hbp⟩ := run_automation_postBoot env tn hdev hboot
    rw [hb] at hev
    refine ⟨tail, by simpa using hev, ?_⟩
    rw [hev, List.countP_append, List.countP_cons]
    simp [isBackoffPause, hbp, List.countP_cons]
  · intro h0 h1 h2
    have hb := bootstrapLoop_fail3 env.serverResults h0 h1 h2
    have hboot : (bootstrapLoop env.serverResults 3 3 0).1 = false := by rw [hb]
    rw [run_automation_bootfail env tn hdev hboot, hb]
    refine ⟨by simp [List.countP_cons, isBackoffPause], by simp, rfl⟩

/-- Closed instance of the amended C3 at `N = 1`: device `"d"`, first
attempt fails, second succeeds. -/
theorem bootstrap_backoff_pauses_witness :
    ∃ tail,
      (run_automation envFail1 none).events =
        [.serverAttempt false, .sleep 3, .serverAttempt true,
          .graphStream] ++ tail ∧
      (run_automation envFail1 none).events.countP isBackoffPause = 1 :=
  (bootstrap_backoff_pauses envFail1 none rfl).1 rfl rfl

/-- **C1.** When the planning-engine stream raises during streaming, the
exception is re-raised to the caller only after trace finalization has run
to completion: for a run that supplied a (truthy) test name and reached
trace setup (device resolved, bootstrap succeeded), the returned outcome is
the re-raised error, and the performed-effects trace *ends* with the whole
finalization sequence — gif and steps-JSON compilation, cleanup, and the
rename of the temp directory to the `_FAIL`-tagged name — so finalization
completed before the error propagated; the temp directory is gone and the
FAIL-named directory is present. -/
theorem streaming_error_after_finalization (env : Env) (s : String)
    (hdev : optStrTruthy env.device_id = true)
    (hboot : (bootstrapLoop env.serverResults 3 3 0).1 = true)
    (hs : s ≠ "")
    (herr : env.streamError = true) :
    ∃ pre,
      (run_automation env (some s)).events =
        pre ++ [.compileGif, .compileStepsJson, .removeImages,
          .removeStepsJson,
          .renameTrace s (newTraceName s false env.timestampStr), .sleep 1] ∧
      (run_automation env (some s)).result = .error () ∧
      (run_automation env (some s)).tempDirExists = false ∧
      (run_automation env (some s)).finalDirs =
        [newTraceName s false env.timestampStr] := by
  have htn : optStrTruthy (some s) = true := by simp [optStrTruthy, hs]
  refine ⟨(bootstrapLoop env.serverResults 3 3 0).2 ++ [.graphStream],
    ?_, ?_, ?_, ?_⟩ <;>
    simp [run_automation, hdev, hboot, herr, htn, finalizeTrace]

/-- Closed instance of C1: device `"d"`, servers up first try, stream
raises after its chunks, test name `"t"`. -/
theorem streaming_error_after_finalization_witness :
    ∃ pre,
      (run_automation envStreamErr (some "t")).events =
        pre ++ [.compileGif, .compileStepsJson, .removeImages,
          .removeStepsJson, .renameTrace "t" (newTraceName "t" false "TS"),
          .sleep 1] ∧
      (run_automation envStreamErr (some "t")).result = .error () ∧
      (run_automation envStreamErr (some "t")).tempDirExists = false ∧
      (run_automation envStreamErr (some "t")).finalDirs =
        [newTraceName "t" false "TS"] :=
  streaming_error_after_finalization envStreamErr "t" rfl rfl (by decide) rfl

/-- **C6.** For every run that supplied a (truthy) test name and reached
trace setup, after finalization exactly one of the temp trace directory and
the final named output directory exists — the temp directory was created
and then consumed by the rename into a directory named
`{testName}{_PASS|_FAIL}_{timestamp}` (`newTraceName`) — whatever the run's
outcome (success, no result, or a raised streaming error); and when no
(truthy) test name is supplied, finalization is skipped and no trace
directories are ever created. -/
theorem trace_dirs_exactly_one :
    (∀ (env : Env) (s : String),
      optStrTruthy env.device_id = true →
      (bootstrapLoop env.serverResults 3 3 0).1 = true →
      s ≠ "" →
      (run_automation env (some s)).tempDirCreated = true ∧
      (run_automation env (some s)).tempDirExists = false ∧
      (run_automation env (some s)).finalDirs =
        [newTraceName s (run_automation env (some s)).successFlag
          env.timestampStr])
    ∧ (∀ (env : Env) (tn : Option String),
        optStrTruthy tn = false →
        (run_automation env tn).tempDirCreated = false ∧
        (run_automation env tn).tempDirExists = false ∧
        (run_automation env tn).finalDirs = []) := by
  constructor
  · intro env s hdev hboot hs
    have htn : optStrTruthy (some s) = true := by simp [optStrTruthy, hs]
    cases herr : env.streamError with
    | true =>
      refine ⟨?_, ?_, ?_⟩ <;>
        simp [run_automation, hdev, hboot, herr, htn, finalizeTrace]
    | false =>
      cases hls : (consumeStream env.chunks none ⟨[], 0⟩).1 with
      | none =>
        refine ⟨?_, ?_, ?_⟩ <;>
          simp [run_automation, hdev, hboot, herr, hls, htn, finalizeTrace]
      | some st =>
        refine ⟨?_, ?_, ?_⟩ <;>
          simp [run_automation, hdev, hboot, herr, hls, htn, finalizeTrace]
  · intro env tn htn
    cases hdev : optStrTruthy env.device_id with
    | false => rw [run_automation_nodevice env tn hdev]; exact ⟨rfl, rfl, rfl⟩
    | true =>
      cases hboot : (bootstrapLoop env.serverResults 3 3 0).1 with
      | false =>
        rw [run_automation_bootfail env tn hdev hboot]
        exact ⟨rfl, rfl, rfl⟩
      | true =>
        cases herr : env.streamError with
        | true =>
          refine ⟨?_, ?_, ?_⟩ <;>
            simp [run_automation, hdev, hboot, herr, htn, finalizeTrace]
        | false =>
          cases hls : (consumeStream env.chunks none ⟨[], 0⟩).1 with
          | none =>
            refine ⟨?_, ?_, ?_⟩ <;>
              simp [run_automation, hdev, hboot, herr, hls, htn, finalizeTrace]
          | some st =>
            refine ⟨?_, ?_, ?_⟩ <;>
              simp [run_automation, hdev, hboot, herr, hls, htn, finalizeTrace]

/-- The `structured_output` value `run_automation` ends up with: `None`
unless a structured format was requested and the outputter call returned
normally (an outputter exception is caught and leaves `None`). -/
def structuredOutputOf (env : Env) : Option (List (String × String)) :=
  if env.outputRequested then
    match env.outputterResult with
    | .ok v => v
    | .error _ => none
  else none

/-- **C7.** A run whose stream completes with at least one snapshot returns
exactly one of the three result shapes with the precedence structured
payload → most recent recorded thought → no result (`resolveOutput` applied
to the structured output and the final state); and when structured output
was requested but the generator raised, the failure is caught locally: the
run is still marked successful (`successFlag`, hence the `_PASS` trace tag)
and the result falls back to the most recent recorded thought of the final
state, or to no result when it recorded none. -/
theorem output_resolution_precedence (env : Env) (tn : Option String)
    (s : StateV)
    (hdev : optStrTruthy env.device_id = true)
    (hboot : (bootstrapLoop env.serverResults 3 3 0).1 = true)
    (herr : env.streamError = false)
    (hlast : lastSnapshot env.chunks = some s) :
    (run_automation env tn).result =
      .ok (resolveOutput (structuredOutputOf env) (some s)) ∧
    (run_automation env tn).successFlag = true ∧
    (env.outputterResult = .error () →
      (run_automation env tn).result =
        .ok (match s.agents_thoughts.getLast? with
          | some msg => some (.thought msg)
          | none => none)) := by
  have hls : (consumeStream env.chunks none ⟨[], 0⟩).1 = some s := by
    rw [consumeStream_fst, hlast]; rfl
  refine ⟨?_, ?_, ?_⟩
  · simp [run_automation, hdev, hboot, herr, hls, structuredOutputOf]
  · simp [run_automation, hdev, hboot, herr, hls]
  · intro hout
    simp [run_automation, hdev, hboot, herr, hls, hout, resolveOutput,
      structuredTruthy]

/-- Closed instance of C7: structured output requested, the generator
raises, the final snapshot recorded two thoughts — the run returns the most
recent one and is marked successful. -/
theorem output_resolution_precedence_witness :
    (run_automation envOutErr none).result =
      .ok (resolveOutput (structuredOutputOf envOutErr) (some sampleState)) ∧
    (run_automation envOutErr none).successFlag = true ∧
    (envOutErr.outputterResult = .error () →
      (run_automation envOutErr none).result =
        .ok (match sampleState.agents_thoughts.getLast? with
          | some msg => some (.thought msg)
          | none => none)) :=
  output_resolution_precedence envOutErr none sampleState rfl rfl rfl rfl

/-- **C10.** When the planning-engine stream raises, `run_automation`
produces no result value — the call re-raises instead of returning — and
nothing is ever written to the results sink for that run (no
`record_events` effect appears in the trace), even though snapshots
consumed before the failure may have carried recorded agent thoughts: the
exception propagates past the result-resolution step entirely. -/
theorem streaming_error_no_result (env : Env) (tn : Option String)
    (hdev : optStrTruthy env.device_id = true)
    (hboot : (bootstrapLoop env.serverResults 3 3 0).1 = true)
    (herr : env.streamError = true) :
    (run_automation env tn).result = .error () ∧
    (run_automation env tn).resultsSink = [] ∧
    (run_automation env tn).events.countP isRecordEvent = 0 := by
  refine ⟨?_, ?_, ?_⟩
  · simp [run_automation, hdev, hboot, herr]
  · simp [run_automation, hdev, hboot, herr]
  · have hboot0 : (bootstrapLoop env.serverResults 3 3 0).2.countP
        isRecordEvent = 0 := by
      rw [List.countP_eq_zero]
      intro e he
      rcases bootstrapLoop_mem env.serverResults 3 3 0 e he with h | rfl
      · cases e <;> simp_all [isServerAttempt, isRecordEvent]
      · decide
    cases htr : optStrTruthy tn <;>
      simp [run_automation, hdev, hboot, herr, htr, finalizeTrace,
        List.countP_append, List.countP_cons, isRecordEvent, hboot0]

/-- Closed instance of C10: the stream yields a snapshot carrying two
recorded thoughts and then raises — the run re-raises, and the results sink
stays empty. -/
theorem streaming_error_no_result_witness :
    (run_automation envStreamErr none).result = .error () ∧
    (run_automation envStreamErr none).resultsSink = [] ∧
    (run_automation envStreamErr none).events.countP isRecordEvent = 0 :=
  streaming_error_no_result envStreamErr none rfl rfl rfl

end MobileUse
